import Mathlib

/-! Shallow embedding of the Runloop take-home assessment scripts:
a shared JSON answers document on disk, a remote devbox service reached
through a vendor SDK, and one sequential workflow driver per task
(task1a create devbox, task1b devbox operations, task1c snapshot,
task2 blueprint, task3 custom scenario). -/

/-- An answers document: a flat string-to-string mapping (a JSON object),
kept as an association list in insertion order, mirroring a Python dict. -/
abbrev Doc := List (String × String)

/-- Python dict lookup `d.get(k)`: first binding wins (keys are unique in
documents produced by the scripts). -/
def lookupDoc : Doc → String → Option String
  | [], _ => none
  | (k', v) :: rest, k => if k' = k then some v else lookupDoc rest k

/-- Python dict assignment `d[k] = v`: overwrite the existing binding in
place, otherwise append a new binding at the end. -/
def insertDoc : Doc → String → String → Doc
  | [], k, v => [(k, v)]
  | (k', v') :: rest, k, v =>
      if k' = k then (k, v) :: rest else (k', v') :: insertDoc rest k v

/-- JSON values, as written to and parsed back from answers.json. -/
inductive Json where
  | str (s : String)
  | num (n : Int)
  | bool (b : Bool)
  | null
  | arr (elems : List Json)
  | obj (fields : List (String × Json))

/-- json.dump of a flat string-valued dict. -/
def dumpDoc (d : Doc) : Json :=
  .obj (d.map fun p => (p.1, .str p.2))

/-- Reads the fields of a JSON object whose values are all strings back
into a flat mapping (the shape every answers.json used by the scripts
has; other shapes are rejected). -/
def parseFields : List (String × Json) → Option Doc
  | [] => some []
  | (k, .str s) :: rest => (parseFields rest).map (fun d => (k, s) :: d)
  | _ => none

/-- Interprets a JSON value as a flat string-to-string document. -/
def parseDoc : Json → Option Doc
  | .obj fields => parseFields fields
  | _ => none

/-- State of the answers.json file on disk: absent, unparsable text, or a
stored JSON value. -/
inductive FileState where
  | missing
  | malformed
  | stored (j : Json)

/-- Error taxonomy for driver initialization failures. -/
inductive InitErr where
  | configMissing
  | configMalformed
  | requiredFieldAbsent (field : String)
deriving DecidableEq

/-- `_load_config` / `load_answers`: open answers.json and json.load it,
yielding the flat mapping or an initialization error. -/
def loadConfig : FileState → Except InitErr Doc
  | .missing => .error .configMissing
  | .malformed => .error .configMalformed
  | .stored j =>
      match parseDoc j with
      | some d => .ok d
      | none => .error .configMalformed

/-- `_update_answers_json(key, value)` as shared by task1b, task1c, task2
and task3: read the file, set the key, write the whole document back; any
exception (unreadable or unparsable file) is caught and logged, leaving
the file unchanged and returning normally. -/
def updateAnswersJson (fs : FileState) (k v : String) : FileState :=
  match fs with
  | .stored j =>
      match parseDoc j with
      | some d => .stored (dumpDoc (insertDoc d k v))
      | none => fs
  | _ => fs

/-- A devbox object as returned by the SDK, with the attributes the
scripts access. -/
structure DevboxInfo where
  name : String
  id : String
  status : String
deriving DecidableEq

/-- One remote SDK invocation, with the arguments each call site passes. -/
inductive Call where
  | createAndAwaitRunning (name : String)
  | listDevboxes
  | writeFile (devboxId path content : String)
  | executeCommand (devboxId command : String)
  | createSnapshot (devboxId name : String)
  | createBlueprint (name description : String) (commands : List String)
  | createDevbox (name blueprintId : String)
  | createScenario (name description scorerScript : String)
  | createScenarioRun (scenarioId : String)
  | completeScenarioRun (scenarioRunId : String)
deriving DecidableEq

/-- What a remote call returns: a typed success object or a raised
exception. A result whose shape does not match what the call site reads
(e.g. a list where a devbox object is expected) makes the attribute
access raise, which the scripts' broad except blocks treat like any
other service exception. -/
inductive RemoteResult where
  | devbox (info : DevboxInfo)
  | devboxList (infos : List DevboxInfo)
  | fileWritten (detail : String)
  | execResult (output : String)
  | snapshot (name id : String)
  | blueprint (name id : String)
  | scenario (name id : String)
  | scenarioRun (id : String)
  | completed (detail : String)
  | exn (message : String)
deriving DecidableEq

/-- The driver's environment: the remote service (a stub mapping the
zero-based index of the call within the run and the call itself to a
result) and the local ./resources directory inputs used by task1b and
task3. -/
structure Env where
  stub : Nat → Call → RemoteResult
  resourcesDirExists : Bool
  resources : List (String × String)
  meTxtLocal : Option String

/-- The mutable world a run threads through: the answers.json file and
the ordered trace of remote calls issued so far. -/
structure World where
  file : FileState
  calls : List Call

/-- Issue one remote call: record it in the trace and ask the stub,
indexed by how many calls were made before it. -/
def issue (env : Env) (w : World) (c : Call) : World × RemoteResult :=
  ({ w with calls := w.calls ++ [c] }, env.stub w.calls.length c)

/-- Python f-string rendering of a value that may be None. -/
def pyStr : Option String → String
  | none => "None"
  | some s => s

/-- The Python truthiness-plus-placeholder test
`not self.devbox_id or self.devbox_id == "YOUR_DEVBOX_ID"`. -/
def devboxIdMissing : Option String → Bool
  | none => true
  | some s => s = "" || s = "YOUR_DEVBOX_ID"

/-! Task 1a: DevboxManager (task1a_create_devbox.py). -/

/-- Fixed devbox name used by task1a. -/
def devboxNameConst : String := "asad.shahid@berkeley.edu"

/-- DevboxManager state after successful initialization. -/
structure MgrState where
  apiKey : String
deriving DecidableEq

/-- DevboxManager.__init__ / load_answers: load answers.json and require
a non-empty api-key; any failure raises before the client touches the
network. -/
def init1a (fs : FileState) : Except InitErr MgrState :=
  match loadConfig fs with
  | .error e => .error e
  | .ok d =>
      match lookupDoc d "api-key" with
      | none => .error (.requiredFieldAbsent "api-key")
      | some key =>
          if key = "" then .error (.requiredFieldAbsent "api-key")
          else .ok { apiKey := key }

/-- DevboxManager.create_devbox: one create_and_await_running call; the
returned object must expose name, id and status or the attribute access
raises (re-raised to the caller). -/
def createDevbox (env : Env) (w : World) : World × Option DevboxInfo :=
  let (w, r) := issue env w (.createAndAwaitRunning devboxNameConst)
  match r with
  | .devbox info => (w, some info)
  | _ => (w, none)

/-- DevboxManager.update_answers_json: re-read answers.json, set api-key,
devbox-name and devbox-id, write it back; unlike the other scripts this
helper re-raises on any error. -/
def updateAnswersJson1a (fs : FileState) (apiKey : String)
    (info : DevboxInfo) : Except Unit FileState :=
  match fs with
  | .stored j =>
      match parseDoc j with
      | some d =>
          .ok (.stored (dumpDoc
            (insertDoc (insertDoc (insertDoc d "api-key" apiKey)
              "devbox-name" info.name) "devbox-id" info.id)))
      | none => .error ()
  | _ => .error ()

/-- DevboxManager.run: create the devbox then record it; any exception is
caught and turned into sys.exit(1). Returns the exit code and world. -/
def run1a (env : Env) (st : MgrState) (w : World) : Nat × World :=
  match createDevbox env w with
  | (w, none) => (1, w)
  | (w, some info) =>
      match updateAnswersJson1a w.file st.apiKey info with
      | .error _ => (1, w)
      | .ok fs => (0, { w with file := fs })

/-- task1a main: construct the manager and run; initialization errors and
interrupts exit 1, otherwise the run's own exit code stands. -/
def main1a (env : Env) (fs : FileState) : Nat × World :=
  match init1a fs with
  | .error _ => (1, { file := fs, calls := [] })
  | .ok st => run1a env st { file := fs, calls := [] }

/-! Task 1b: DevboxOperations (task1b_devbox_operations.py). -/

/-- DevboxOperations state after initialization. -/
structure OpsState where
  apiKey : String
  devboxName : Option String
  devboxId : Option String
deriving DecidableEq

/-- DevboxOperations.__init__: _load_config exits on a missing or
malformed file; a missing or empty api-key raises ValueError. -/
def init1b (fs : FileState) : Except InitErr OpsState :=
  match loadConfig fs with
  | .error e => .error e
  | .ok d =>
      match lookupDoc d "api-key" with
      | none => .error (.requiredFieldAbsent "api-key")
      | some key =>
          if key = "" then .error (.requiredFieldAbsent "api-key")
          else .ok { apiKey := key,
                     devboxName := lookupDoc d "devbox-name",
                     devboxId := lookupDoc d "devbox-id" }

/-- First devbox in the listing whose name equals the configured target
name (a None target matches nothing, as in Python). -/
def findMatch (target : Option String) : List DevboxInfo → Option DevboxInfo
  | [] => none
  | d :: rest => if some d.name = target then some d else findMatch target rest

/-- DevboxOperations.list_devboxes: one list call; on the first devbox
whose name matches, adopt its id, persist it via _update_answers_json and
return True; otherwise (no match, exception, or non-list result) False. -/
def listDevboxesStep (env : Env) (st : OpsState) (w : World) :
    OpsState × World × Bool :=
  let (w, r) := issue env w .listDevboxes
  match r with
  | .devboxList infos =>
      match findMatch st.devboxName infos with
      | some d =>
          ({ st with devboxId := some d.id },
           { w with file := updateAnswersJson w.file "devbox-id" d.id },
           true)
      | none => (st, w, false)
  | _ => (st, w, false)

/-- Upload loop of copy_resources_to_devbox: one write_file per regular
file of ./resources; the first raised exception aborts the loop and the
step; any non-exception result counts as success (the result object is
only printed). -/
def uploadFiles (env : Env) (devboxId : String) :
    List (String × String) → World → World × Bool
  | [], w => (w, true)
  | (fname, content) :: rest, w =>
      let (w, r) := issue env w
        (.writeFile devboxId ("/workspace/resources/" ++ fname) content)
      match r with
      | .exn _ => (w, false)
      | _ => uploadFiles env devboxId rest w

/-- DevboxOperations.copy_resources_to_devbox: fail without any remote
call when ./resources is absent, otherwise upload each file. At this
point run_all_operations has ensured devbox_id is set, so the None
rendering of getD is unreachable in complete runs. -/
def copyResources (env : Env) (st : OpsState) (w : World) : World × Bool :=
  if env.resourcesDirExists then
    uploadFiles env (st.devboxId.getD "") env.resources w
  else (w, false)

/-- DevboxOperations.edit_me_txt: read the local resources/me.txt (a read
failure is caught before any remote call), apply the identity replace of
the email with itself, and write the content to the devbox. -/
def editMeTxt (env : Env) (st : OpsState) (w : World) : World × Bool :=
  match env.meTxtLocal with
  | none => (w, false)
  | some content =>
      let (w, r) := issue env w
        (.writeFile (st.devboxId.getD "") "/workspace/resources/me.txt" content)
      match r with
      | .exn _ => (w, false)
      | _ => (w, true)

/-- DevboxOperations.execute_test_script("test.py"): one execute_command
call; success requires a result exposing .output. -/
def executeTestScript (env : Env) (st : OpsState) (w : World) : World × Bool :=
  let (w, r) := issue env w
    (.executeCommand (st.devboxId.getD "") "python3 /workspace/resources/test.py")
  match r with
  | .execResult _ => (w, true)
  | _ => (w, false)

/-- Steps 1-3 of DevboxOperations.run_all_operations (after the optional
devbox-id resolution): copy resources, edit me.txt, execute the test
script, halting at the first failed step. -/
def restOfOps (env : Env) (st : OpsState) (w : World) : World × Bool :=
  match copyResources env st w with
  | (w, false) => (w, false)
  | (w, true) =>
      match editMeTxt env st w with
      | (w, false) => (w, false)
      | (w, true) => executeTestScript env st w

/-- DevboxOperations.run_all_operations: resolve the devbox id via the
listing when it is absent, empty or the placeholder, then run the
remaining steps; a failed resolution halts everything. -/
def runAllOps (env : Env) (st : OpsState) (w : World) : World × Bool :=
  if devboxIdMissing st.devboxId then
    match listDevboxesStep env st w with
    | (st, w, true) => restOfOps env st w
    | (_, w, false) => (w, false)
  else restOfOps env st w

/-- task1b main: initialization failures exit 1; the boolean outcome of
run_all_operations is ignored, so the process exits 0 whenever
initialization succeeded. -/
def main1b (env : Env) (fs : FileState) : Nat × World :=
  match init1b fs with
  | .error _ => (1, { file := fs, calls := [] })
  | .ok st => (0, (runAllOps env st { file := fs, calls := [] }).1)

/-! Task 1c: SnapshotCreator (task1c_create_snapshot.py). -/

/-- SnapshotCreator state after initialization. -/
structure SnapState where
  apiKey : String
  devboxName : Option String
  devboxId : String
deriving DecidableEq

/-- SnapshotCreator.__init__: besides the api-key check, a devbox-id that
is absent, empty or the placeholder "YOUR_DEVBOX_ID" raises ValueError
before the client is built. -/
def init1c (fs : FileState) : Except InitErr SnapState :=
  match loadConfig fs with
  | .error e => .error e
  | .ok d =>
      match lookupDoc d "api-key" with
      | none => .error (.requiredFieldAbsent "api-key")
      | some key =>
          if key = "" then .error (.requiredFieldAbsent "api-key")
          else
            if devboxIdMissing (lookupDoc d "devbox-id") then
              .error (.requiredFieldAbsent "devbox-id")
            else .ok { apiKey := key,
                       devboxName := lookupDoc d "devbox-name",
                       devboxId := (lookupDoc d "devbox-id").getD "" }

/-- SnapshotCreator.create_snapshot: one create_snapshot call named from
the configured devbox name (f-string renders a missing name as "None");
on success the id is persisted and the snapshot returned, on any failure
None is returned. -/
def createSnapshotStep (env : Env) (st : SnapState) (w : World) :
    World × Option (String × String) :=
  let (w, r) := issue env w
    (.createSnapshot st.devboxId
      ("snapshot-after-operations-" ++ pyStr st.devboxName))
  match r with
  | .snapshot n i =>
      ({ w with file := updateAnswersJson w.file "snapshot-id" i }, some (n, i))
  | _ => (w, none)

/-- SnapshotCreator.run_all_operations: the single snapshot step. -/
def runAllSnap (env : Env) (st : SnapState) (w : World) : World × Bool :=
  match createSnapshotStep env st w with
  | (w, none) => (w, false)
  | (w, some _) => (w, true)

/-- task1c main: initialization failures exit 1; the boolean outcome of
run_all_operations is ignored, so the process exits 0 whenever
initialization succeeded. -/
def main1c (env : Env) (fs : FileState) : Nat × World :=
  match init1c fs with
  | .error _ => (1, { file := fs, calls := [] })
  | .ok st => (0, (runAllSnap env st { file := fs, calls := [] }).1)

/-! Task 2: BlueprintCreator (task2_create_blueprint.py). -/

/-- BlueprintCreator state after initialization. -/
structure BpState where
  apiKey : String
deriving DecidableEq

/-- BlueprintCreator.__init__: load answers.json and require a non-empty
api-key. -/
def init2 (fs : FileState) : Except InitErr BpState :=
  match loadConfig fs with
  | .error e => .error e
  | .ok d =>
      match lookupDoc d "api-key" with
      | none => .error (.requiredFieldAbsent "api-key")
      | some key =>
          if key = "" then .error (.requiredFieldAbsent "api-key")
          else .ok { apiKey := key }

/-- BlueprintCreator.create_blueprint: one blueprints.create call with
the fixed name, description and provisioning commands; on success the
name and id are persisted. -/
def createBlueprintStep (env : Env) (w : World) :
    World × Option (String × String) :=
  let (w, r) := issue env w
    (.createBlueprint "cowsay-blueprint" "Blueprint with cowsay utility installed"
      ["apt-get update", "apt-get install -y cowsay"])
  match r with
  | .blueprint n i =>
      ({ w with file := (updateAnswersJson
          (updateAnswersJson w.file "blueprint-name" n) "blueprint-id" i) },
       some (n, i))
  | _ => (w, none)

/-- BlueprintCreator.boot_devbox_from_blueprint: one devboxes.create call
from the blueprint; on success name and id are persisted. -/
def bootDevboxStep (env : Env) (blueprintId : String) (w : World) :
    World × Option (String × String) :=
  let (w, r) := issue env w (.createDevbox "cowsay-test-devbox" blueprintId)
  match r with
  | .devbox info =>
      ({ w with file := (updateAnswersJson
          (updateAnswersJson w.file "devbox-from-blueprint-name" info.name)
          "devbox-from-blueprint-id" info.id) },
       some (info.name, info.id))
  | _ => (w, none)

/-- BlueprintCreator.test_cowsay: one execute_command call running cowsay;
success requires a result exposing .output. -/
def testCowsayStep (env : Env) (devboxId : String) (w : World) : World × Bool :=
  let (w, r) := issue env w
    (.executeCommand devboxId "cowsay \x27Hello from Runloop!\x27")
  match r with
  | .execResult _ => (w, true)
  | _ => (w, false)

/-- BlueprintCreator.run_all_operations: create blueprint, boot devbox
from it, test cowsay, halting at the first failed step. -/
def runAllBp (env : Env) (w : World) : World × Bool :=
  match createBlueprintStep env w with
  | (w, none) => (w, false)
  | (w, some bp) =>
      match bootDevboxStep env bp.2 w with
      | (w, none) => (w, false)
      | (w, some dv) => testCowsayStep env dv.2 w

/-- task2 main: initialization failures exit 1; the boolean outcome of
run_all_operations is ignored, so the process exits 0 whenever
initialization succeeded. -/
def main2 (env : Env) (fs : FileState) : Nat × World :=
  match init2 fs with
  | .error _ => (1, { file := fs, calls := [] })
  | .ok _ => (0, (runAllBp env { file := fs, calls := [] }).1)

/-! Task 3: ScenarioCreator (task3_custom_scenario.py). -/

/-- ScenarioCreator state after initialization. -/
structure ScenState where
  apiKey : String
deriving DecidableEq

/-- ScenarioCreator.__init__: load answers.json and require a non-empty
api-key. -/
def init3 (fs : FileState) : Except InitErr ScenState :=
  match loadConfig fs with
  | .error e => .error e
  | .ok d =>
      match lookupDoc d "api-key" with
      | none => .error (.requiredFieldAbsent "api-key")
      | some key =>
          if key = "" then .error (.requiredFieldAbsent "api-key")
          else .ok { apiKey := key }

/-- The custom scorer source embedded in create_custom_scenario, passed
to the remote service as an opaque text blob and never executed locally. -/
def scorerScript : String :=
  "\n                    # Custom scorer that checks for resources\n                    def score(devbox_id, context):\n                        try:\n                            # Check if resources folder exists\n                            result = client.devboxes.execute_command(\n                                devbox_id=devbox_id,\n                                command=\"ls -la /workspace/resources\"\n                            )\n                            \n                            if result.exit_code == 0:\n                                # Check for specific files\n                                me_txt = client.devboxes.execute_command(\n                                    devbox_id=devbox_id,\n                                    command=\"test -f /workspace/resources/me.txt && echo \x27me.txt exists\x27\"\n                                )\n                                \n                                test_py = client.devboxes.execute_command(\n                                    devbox_id=devbox_id,\n                                    command=\"test -f /workspace/resources/test.py && echo \x27test.py exists\x27\"\n                                )\n                                \n                                if me_txt.exit_code == 0 and test_py.exit_code == 0:\n                                    return 1  # Success\n                            \n                            return 0  # Failure\n                        except Exception as e:\n                            return 0  # Failure on error\n                    "

/-- The scenarios.create call issued by create_custom_scenario. -/
def createScenarioCall : Call :=
  .createScenario "resources-checker-scenario"
    "Scenario that checks for presence of resources folder and files"
    scorerScript

/-- ScenarioCreator.create_custom_scenario: one scenarios.create call; on
success the scenario (name, id) is returned, nothing is persisted. -/
def createCustomScenario (env : Env) (w : World) :
    World × Option (String × String) :=
  let (w, r) := issue env w createScenarioCall
  match r with
  | .scenario n i => (w, some (n, i))
  | _ => (w, none)

/-- ScenarioCreator.create_scenario_run: one scenario_runs.create call;
on success the run id is persisted as ext-scenario-run-id. -/
def createScenarioRunStep (env : Env) (scenarioId : String) (w : World) :
    World × Option String :=
  let (w, r) := issue env w (.createScenarioRun scenarioId)
  match r with
  | .scenarioRun i =>
      ({ w with file := updateAnswersJson w.file "ext-scenario-run-id" i }, some i)
  | _ => (w, none)

/-- ScenarioCreator.copy_resources_to_devbox: defined in the script but
never invoked by run_all_operations. -/
def copyResources3 (env : Env) (devboxId : String) (w : World) : World × Bool :=
  if env.resourcesDirExists then
    uploadFiles env devboxId env.resources w
  else (w, false)

/-- ScenarioCreator.execute_test_script: writes a fixed me.txt then runs
test.py; defined in the script but never invoked by run_all_operations. -/
def executeTestScript3 (env : Env) (devboxId : String) (w : World) :
    World × Bool :=
  let (w, r) := issue env w
    (.writeFile devboxId "/workspace/resources/me.txt" "asad.shahid@berkeley.edu")
  match r with
  | .exn _ => (w, false)
  | _ =>
      let (w, r) := issue env w
        (.executeCommand devboxId "python3 /workspace/resources/test.py")
      match r with
      | .execResult _ => (w, true)
      | _ => (w, false)

/-- ScenarioCreator.score_and_complete_scenario: one scenario_runs.complete
call; defined in the script but never invoked by run_all_operations. -/
def scoreAndCompleteScenario (env : Env) (scenarioRunId : String) (w : World) :
    World × Bool :=
  let (w, r) := issue env w (.completeScenarioRun scenarioRunId)
  match r with
  | .exn _ => (w, false)
  | _ => (w, true)

/-- ScenarioCreator.run_all_operations: create the scenario, create a run
of it, then print notes about the remaining steps and return True; the
copy/execute/complete helpers are never called. -/
def runAllScen (env : Env) (w : World) : World × Bool :=
  match createCustomScenario env w with
  | (w, none) => (w, false)
  | (w, some sc) =>
      match createScenarioRunStep env sc.2 w with
      | (w, none) => (w, false)
      | (w, some _) => (w, true)

/-- task3 main: initialization failures exit 1; the boolean outcome of
run_all_operations is ignored, so the process exits 0 whenever
initialization succeeded. -/
def main3 (env : Env) (fs : FileState) : Nat × World :=
  match init3 fs with
  | .error _ => (1, { file := fs, calls := [] })
  | .ok _ => (0, (runAllScen env { file := fs, calls := [] }).1)

/-! Auxiliary predicates and concrete test fixtures used by the
verification theorems below. -/

/-- Whether an initialization attempt succeeded. -/
def isOkE {ε α : Type} : Except ε α → Bool
  | .ok _ => true
  | .error _ => false

/-- Whether a remote result is a devbox object (exposing name, id and
status, as DevboxManager.create_devbox reads). -/
def isDevboxShape : RemoteResult → Bool
  | .devbox _ => true
  | _ => false

/-- The scenario id carried by a scenarios.create result. -/
def scenarioIdOf : RemoteResult → String
  | .scenario _ i => i
  | _ => ""

/-- Calls a ScenarioCreator run is allowed to issue: scenario creation
and scenario-run creation only. -/
def isScenOnly : Call → Bool
  | .createScenario _ _ _ => true
  | .createScenarioRun _ => true
  | _ => false

/-- A run outcome that respects a service raising on the N-th call: at
most N calls were issued, and if the N-th call was reached the run made
exactly N calls and reported failure. -/
def haltedAt (N : Nat) (res : World × Bool) : Prop :=
  res.1.calls.length ≤ N
  ∧ (N ≤ res.1.calls.length → res.1.calls.length = N ∧ res.2 = false)

/-- Same as haltedAt for task1a's run, whose failure signal is the exit
code 1. -/
def haltedAtExit (N : Nat) (res : Nat × World) : Prop :=
  res.2.calls.length ≤ N
  ∧ (N ≤ res.2.calls.length → res.2.calls.length = N ∧ res.1 = 1)

/-- A service stub that raises on every call. -/
def envBoom : Env :=
  { stub := fun _ _ => .exn "boom",
    resourcesDirExists := false, resources := [], meTxtLocal := none }

/-- A service stub answering every call with a well-shaped success. -/
def envHappy : Env :=
  { stub := fun _ c =>
      match c with
      | .createAndAwaitRunning n => .devbox ⟨n, "dv-1", "running"⟩
      | .listDevboxes => .devboxList [⟨"asad.shahid@berkeley.edu", "dv-1", "running"⟩]
      | .writeFile _ _ _ => .fileWritten "ok"
      | .executeCommand _ _ => .execResult "out"
      | .createSnapshot _ n => .snapshot n "snap-1"
      | .createBlueprint n _ _ => .blueprint n "bp-1"
      | .createDevbox n _ => .devbox ⟨n, "dv-2", "running"⟩
      | .createScenario n _ _ => .scenario n "sc-1"
      | .createScenarioRun _ => .scenarioRun "run-1"
      | .completeScenarioRun _ => .completed "done",
    resourcesDirExists := true,
    resources := [("test.py", "print(1)")],
    meTxtLocal := some "asad.shahid@berkeley.edu" }

/-- An operations state whose devbox id is unresolved. -/
def stUnresolved : OpsState :=
  { apiKey := "k", devboxName := some "asad.shahid@berkeley.edu", devboxId := none }

/-- An operations state whose devbox id is already resolved. -/
def stResolved : OpsState :=
  { apiKey := "k", devboxName := some "asad.shahid@berkeley.edu",
    devboxId := some "dv-1" }

/-- A snapshot-driver state fixture. -/
def stSnap : SnapState :=
  { apiKey := "k", devboxName := some "asad.shahid@berkeley.edu", devboxId := "dv-1" }

/-- A provision-driver state fixture. -/
def stMgr : MgrState := { apiKey := "k" }

/-- Scenario for C4: an answers.json holding only the api key. -/
def fsKeyOnly : FileState := .stored (dumpDoc [("api-key", "k")])

/-- Stub for C4: create_and_await_running returns id d1, name x, status
running. -/
def envC4 : Env :=
  { stub := fun _ _ => .devbox ⟨"x", "d1", "running"⟩,
    resourcesDirExists := false, resources := [], meTxtLocal := none }

/-! Verification theorems. -/

/-- Mapping a document to JSON object fields and back is the identity. -/
theorem parseFields_dump (d : Doc) :
    parseFields (d.map fun p => (p.1, Json.str p.2)) = some d := by
  induction d with
  | nil => rfl
  | cons p rest ih =>
      obtain ⟨k, v⟩ := p
      simp [parseFields, ih]

/-- A dumped document parses back to itself. -/
theorem parseDoc_dumpDoc (d : Doc) : parseDoc (dumpDoc d) = some d := by
  simp [parseDoc, dumpDoc, parseFields_dump]

theorem lookupDoc_insertDoc_self (d : Doc) (k v : String) :
    lookupDoc (insertDoc d k v) k = some v := by
  induction d with
  | nil => simp [insertDoc, lookupDoc]
  | cons p rest ih =>
      obtain ⟨k', v'⟩ := p
      by_cases h : k' = k
      · simp [insertDoc, h, lookupDoc]
      · simp [insertDoc, h, lookupDoc, ih]

theorem lookupDoc_insertDoc_ne (d : Doc) (k v k' : String) (h : k' ≠ k) :
    lookupDoc (insertDoc d k v) k' = lookupDoc d k' := by
  induction d with
  | nil => simp [insertDoc, lookupDoc, Ne.symm h]
  | cons p rest ih =>
      obtain ⟨k₀, v₀⟩ := p
      by_cases h₀ : k₀ = k
      · subst h₀
        simp [insertDoc, lookupDoc, Ne.symm h]
      · simp [insertDoc, h₀, lookupDoc, ih]

/-- Documents with duplicate-free keys that are permutations of each
other agree as mappings. -/
theorem lookupDoc_perm (k : String) :
    ∀ {m m' : Doc}, m.Perm m' → (m.map Prod.fst).Nodup →
      lookupDoc m k = lookupDoc m' k := by
  intro m m' hp
  induction hp with
  | nil => intro _; rfl
  | cons x _ ih =>
      intro hn
      obtain ⟨k₀, v₀⟩ := x
      simp only [List.map_cons, List.nodup_cons] at hn
      by_cases h : k₀ = k
      · simp [lookupDoc, h]
      · simp [lookupDoc, h, ih hn.2]
  | swap x y l =>
      intro hn
      obtain ⟨k₀, v₀⟩ := x
      obtain ⟨k₁, v₁⟩ := y
      simp only [List.map_cons, List.nodup_cons, List.mem_cons] at hn
      have hne : k₁ ≠ k₀ := fun h => hn.1 (Or.inl h)
      by_cases h₀ : k₀ = k
      · by_cases h₁ : k₁ = k
        · exact absurd (h₁.trans h₀.symm) hne
        · simp [lookupDoc, h₀, h₁]
      · by_cases h₁ : k₁ = k
        · simp [lookupDoc, h₀, h₁]
        · simp [lookupDoc, h₀, h₁]
  | trans h₁ h₂ ih₁ ih₂ =>
      intro hn
      have hn₂ := ((h₁.map Prod.fst).nodup_iff).mp hn
      exact (ih₁ hn).trans (ih₂ hn₂)

/-- A successful load comes from a stored JSON value that parses to the
returned document. -/
theorem loadConfig_ok_shape (fs : FileState) (d : Doc)
    (h : loadConfig fs = .ok d) :
    ∃ j, fs = .stored j ∧ parseDoc j = some d := by
  cases fs with
  | missing => simp [loadConfig] at h
  | malformed => simp [loadConfig] at h
  | stored j =>
      refine ⟨j, rfl, ?_⟩
      cases hp : parseDoc j with
      | none => rw [loadConfig, hp] at h; cases h
      | some d' =>
          rw [loadConfig, hp] at h
          cases h
          rfl

/-- C7: writing the config document via the accessor and then reading it
back via load yields a mapping equal to the one written, independent of
key order: the dumped document loads back exactly, and documents with
duplicate-free keys that differ only in order are equal as mappings. -/
theorem c7_config_roundtrip (m m' : Doc) (k : String)
    (hn : (m.map Prod.fst).Nodup) (hp : m.Perm m') :
    loadConfig (FileState.stored (dumpDoc m)) = .ok m
    ∧ lookupDoc m k = lookupDoc m' k :=
  ⟨by rw [loadConfig, parseDoc_dumpDoc], lookupDoc_perm k hp hn⟩

theorem c7_config_roundtrip_witness :
    loadConfig (FileState.stored (dumpDoc [("api-key", "k"), ("devbox-id", "d1")]))
      = Except.ok [("api-key", "k"), ("devbox-id", "d1")]
    ∧ lookupDoc [("api-key", "k"), ("devbox-id", "d1")] "api-key"
        = lookupDoc [("devbox-id", "d1"), ("api-key", "k")] "api-key" :=
  c7_config_roundtrip [("api-key", "k"), ("devbox-id", "d1")]
    [("devbox-id", "d1"), ("api-key", "k")] "api-key" (by decide)
    (List.Perm.swap ("devbox-id", "d1") ("api-key", "k") [])

/-- C8: `set(key, value)` performs a full read-modify-write that maps the
key to the value, overwriting any prior binding, while every other key's
value is unchanged. -/
theorem c8_set_frame (fs : FileState) (d : Doc) (k v : String)
    (h : loadConfig fs = .ok d) :
    loadConfig (updateAnswersJson fs k v) = .ok (insertDoc d k v)
    ∧ lookupDoc (insertDoc d k v) k = some v
    ∧ ∀ k', k' ≠ k → lookupDoc (insertDoc d k v) k' = lookupDoc d k' := by
  obtain ⟨j, rfl, hp⟩ := loadConfig_ok_shape fs d h
  refine ⟨?_, lookupDoc_insertDoc_self d k v,
    fun k' hk => lookupDoc_insertDoc_ne d k v k' hk⟩
  rw [updateAnswersJson, hp, loadConfig, parseDoc_dumpDoc]

theorem c8_set_frame_witness :
    loadConfig (updateAnswersJson
        (FileState.stored (dumpDoc [("api-key", "k"), ("devbox-id", "d0")]))
        "devbox-id" "d1")
      = Except.ok [("api-key", "k"), ("devbox-id", "d1")]
    ∧ lookupDoc [("api-key", "k"), ("devbox-id", "d1")] "devbox-id" = some "d1"
    ∧ lookupDoc [("api-key", "k"), ("devbox-id", "d1")] "api-key" = some "k" := by
  have h := c8_set_frame
    (FileState.stored (dumpDoc [("api-key", "k"), ("devbox-id", "d0")]))
    [("api-key", "k"), ("devbox-id", "d0")] "devbox-id" "d1" (by rfl)
  exact ⟨h.1, h.2.1, (h.2.2 "api-key" (by decide)).trans (by rfl)⟩

/-- C3: a config document that exists and parses but has no api-key (or
an empty one) makes every driver's initialization fail with a
required-field-absent error, the process exit 1, and zero remote calls
issued. -/
theorem c3_missing_api_key (env : Env) (j : Json) (d : Doc)
    (hparse : parseDoc j = some d)
    (hkey : lookupDoc d "api-key" = none ∨ lookupDoc d "api-key" = some "") :
    init1a (.stored j) = .error (.requiredFieldAbsent "api-key")
    ∧ main1a env (.stored j) = (1, { file := .stored j, calls := [] })
    ∧ init1b (.stored j) = .error (.requiredFieldAbsent "api-key")
    ∧ main1b env (.stored j) = (1, { file := .stored j, calls := [] })
    ∧ init1c (.stored j) = .error (.requiredFieldAbsent "api-key")
    ∧ main1c env (.stored j) = (1, { file := .stored j, calls := [] })
    ∧ init2 (.stored j) = .error (.requiredFieldAbsent "api-key")
    ∧ main2 env (.stored j) = (1, { file := .stored j, calls := [] })
    ∧ init3 (.stored j) = .error (.requiredFieldAbsent "api-key")
    ∧ main3 env (.stored j) = (1, { file := .stored j, calls := [] }) := by
  have hload : loadConfig (.stored j) = .ok d := by rw [loadConfig, hparse]
  rcases hkey with hkey | hkey <;>
    refine ⟨?_, ?_, ?_, ?_, ?_, ?_, ?_, ?_, ?_, ?_⟩ <;>
      simp [init1a, init1b, init1c, init2, init3,
        main1a, main1b, main1c, main2, main3, hload, hkey]

/-- The listing step always issues exactly the one list call. -/
theorem listStep_calls (env : Env) (st : OpsState) (w : World) :
    (listDevboxesStep env st w).2.1.calls = w.calls ++ [Call.listDevboxes] := by
  simp only [listDevboxesStep, issue]
  split <;> try rfl
  split <;> rfl

/-- The upload loop only appends write_file calls to the trace. -/
theorem uploadFiles_extends (env : Env) (id : String) :
    ∀ (files : List (String × String)) (w : World),
      ∃ t, (uploadFiles env id files w).1.calls = w.calls ++ t
        ∧ ∀ c ∈ t, ∃ a b s, c = Call.writeFile a b s := by
  intro files
  induction files with
  | nil => exact fun w => ⟨[], by simp [uploadFiles], by simp⟩
  | cons f rest ih =>
      intro w
      obtain ⟨fname, content⟩ := f
      simp only [uploadFiles, issue]
      split
      · exact ⟨[Call.writeFile id ("/workspace/resources/" ++ fname) content],
          by simp, by simp⟩
      · obtain ⟨t, ht, hall⟩ :=
          ih { w with calls := w.calls ++ [Call.writeFile id ("/workspace/resources/" ++ fname) content] }
        refine ⟨Call.writeFile id ("/workspace/resources/" ++ fname) content :: t, ?_, ?_⟩
        · rw [ht]; simp
        · intro c hc
          rcases List.mem_cons.mp hc with rfl | hc
          · exact ⟨_, _, _, rfl⟩
          · exact hall c hc

/-- The copy step only appends write_file calls to the trace. -/
theorem copyResources_extends (env : Env) (st : OpsState) (w : World) :
    ∃ t, (copyResources env st w).1.calls = w.calls ++ t
      ∧ ∀ c ∈ t, ∃ a b s, c = Call.writeFile a b s := by
  unfold copyResources
  split
  · exact uploadFiles_extends env _ env.resources w
  · exact ⟨[], by simp, by simp⟩

/-- The me.txt edit step only appends a write_file call to the trace. -/
theorem editMeTxt_extends (env : Env) (st : OpsState) (w : World) :
    ∃ t, (editMeTxt env st w).1.calls = w.calls ++ t
      ∧ ∀ c ∈ t, ∃ a b s, c = Call.writeFile a b s := by
  unfold editMeTxt
  cases env.meTxtLocal with
  | none => exact ⟨[], by simp, by simp⟩
  | some content =>
      simp only [issue]
      split <;>
        exact ⟨[Call.writeFile (st.devboxId.getD "") "/workspace/resources/me.txt" content],
          by simp, by simp⟩

/-- The script execution step issues exactly the one execute call. -/
theorem executeTestScript_calls (env : Env) (st : OpsState) (w : World) :
    (executeTestScript env st w).1.calls = w.calls
      ++ [Call.executeCommand (st.devboxId.getD "") "python3 /workspace/resources/test.py"] := by
  simp only [executeTestScript, issue]
  split <;> rfl

/-- Steps 1-3 of task1b only append write_file and execute_command calls. -/
theorem restOfOps_extends (env : Env) (st : OpsState) (w : World) :
    ∃ t, (restOfOps env st w).1.calls = w.calls ++ t
      ∧ ∀ c ∈ t, (∃ a b s, c = Call.writeFile a b s)
          ∨ ∃ a b, c = Call.executeCommand a b := by
  obtain ⟨t₁, ht₁, hall₁⟩ := copyResources_extends env st w
  obtain ⟨t₂, ht₂, hall₂⟩ := editMeTxt_extends env st (copyResources env st w).1
  have hx := executeTestScript_calls env st (editMeTxt env st (copyResources env st w).1).1
  unfold restOfOps
  rcases hc : copyResources env st w with ⟨w₁, b₁⟩
  rw [hc] at ht₁ ht₂ hx
  dsimp only at ht₁ ht₂ hx
  cases b₁ with
  | false => exact ⟨t₁, ht₁, fun c h => Or.inl (hall₁ c h)⟩
  | true =>
      dsimp only
      rcases he : editMeTxt env st w₁ with ⟨w₂, b₂⟩
      rw [he] at ht₂ hx
      dsimp only at ht₂ hx
      cases b₂ with
      | false =>
          refine ⟨t₁ ++ t₂, ?_, ?_⟩
          · dsimp only
            rw [ht₂, ht₁, List.append_assoc]
          · intro c h
            rcases List.mem_append.mp h with h | h
            · exact Or.inl (hall₁ c h)
            · exact Or.inl (hall₂ c h)
      | true =>
          refine ⟨t₁ ++ t₂
              ++ [Call.executeCommand (st.devboxId.getD "") "python3 /workspace/resources/test.py"], ?_, ?_⟩
          · dsimp only
            rw [hx, ht₂, ht₁]
            simp [List.append_assoc]
          · intro c h
            rcases List.mem_append.mp h with h | h
            · rcases List.mem_append.mp h with h' | h'
              · exact Or.inl (hall₁ c h')
              · exact Or.inl (hall₂ c h')
            · rcases List.mem_singleton.mp h with rfl
              exact Or.inr ⟨_, _, rfl⟩

/-- When the devbox id is unresolved, the first remote call of
run_all_operations is the listing. -/
theorem runAllOps_head (env : Env) (st : OpsState) (fs : FileState)
    (h : devboxIdMissing st.devboxId = true) :
    ((runAllOps env st { file := fs, calls := [] }).1.calls.head?
      = some Call.listDevboxes) := by
  simp only [runAllOps, h, if_true]
  have hc := listStep_calls env st { file := fs, calls := [] }
  rcases hstep : listDevboxesStep env st { file := fs, calls := [] } with ⟨st₁, w₁, b₁⟩
  rw [hstep] at hc
  simp only [List.nil_append] at hc
  cases b₁ with
  | false => simp [hstep, hc]
  | true =>
      obtain ⟨t, ht, _⟩ := restOfOps_extends env st₁ w₁
      simp [hstep, ht, hc]

theorem c3_missing_api_key_witness :
    init1b (FileState.stored (dumpDoc [("devbox-id", "d")]))
      = Except.error (InitErr.requiredFieldAbsent "api-key")
    ∧ main2 envBoom (FileState.stored (dumpDoc [("devbox-id", "d")]))
      = (1, { file := FileState.stored (dumpDoc [("devbox-id", "d")]), calls := [] }) := by
  obtain ⟨h1, h2, h3, h4, h5, h6, h7, h8, h9, h10⟩ :=
    c3_missing_api_key envBoom (dumpDoc [("devbox-id", "d")]) [("devbox-id", "d")]
      (parseDoc_dumpDoc _) (Or.inl rfl)
  exact ⟨h3, h8⟩

/-- C10: a devbox-id that is absent, empty, or the placeholder
"YOUR_DEVBOX_ID" is treated as missing: the Checkpoint driver fails at
initialization with a required-field-absent error before any remote
call, and the Operate driver's first remote call is the list-and-match
resolution rather than a use of the placeholder id. -/
theorem c10_placeholder_id (env : Env) (j : Json) (d : Doc) (key : String)
    (hparse : parseDoc j = some d)
    (hkey : lookupDoc d "api-key" = some key) (hk : key ≠ "")
    (hid : devboxIdMissing (lookupDoc d "devbox-id") = true) :
    init1c (.stored j) = .error (.requiredFieldAbsent "devbox-id")
    ∧ main1c env (.stored j) = (1, { file := .stored j, calls := [] })
    ∧ (main1b env (.stored j)).2.calls.head? = some Call.listDevboxes := by
  have hload : loadConfig (.stored j) = .ok d := by rw [loadConfig, hparse]
  have hinit : init1b (.stored j)
      = .ok { apiKey := key, devboxName := lookupDoc d "devbox-name",
              devboxId := lookupDoc d "devbox-id" } := by
    simp [init1b, hload, hkey, hk]
  refine ⟨?_, ?_, ?_⟩
  · simp [init1c, hload, hkey, hk, hid]
  · simp [main1c, init1c, hload, hkey, hk, hid]
  · simp only [main1b, hinit]
    exact runAllOps_head env _ (.stored j) hid

theorem c10_placeholder_id_witness :
    init1c (FileState.stored (dumpDoc [("api-key", "k"), ("devbox-id", "YOUR_DEVBOX_ID")]))
      = Except.error (InitErr.requiredFieldAbsent "devbox-id")
    ∧ (main1b envHappy
        (FileState.stored (dumpDoc [("api-key", "k"), ("devbox-id", "YOUR_DEVBOX_ID")]))).2.calls.head?
      = some Call.listDevboxes := by
  obtain ⟨h1, h2, h3⟩ := c10_placeholder_id envHappy
    (dumpDoc [("api-key", "k"), ("devbox-id", "YOUR_DEVBOX_ID")])
    [("api-key", "k"), ("devbox-id", "YOUR_DEVBOX_ID")] "k"
    (parseDoc_dumpDoc _) rfl (by decide) rfl
  exact ⟨h1, h3⟩

/-- C4: the Provision driver run on config holding only api-key "k",
against a service whose create-and-await-running succeeds with id "d1",
name "x", status "running", exits 0 and leaves a config containing
devbox-id "d1", devbox-name "x" and the unchanged api-key "k". -/
theorem c4_provision_scenario :
    main1a envC4 fsKeyOnly
      = (0, { file := (FileState.stored (dumpDoc
            [("api-key", "k"), ("devbox-name", "x"), ("devbox-id", "d1")])),
              calls := [Call.createAndAwaitRunning devboxNameConst] })
    ∧ loadConfig (main1a envC4 fsKeyOnly).2.file
        = Except.ok [("api-key", "k"), ("devbox-name", "x"), ("devbox-id", "d1")]
    ∧ lookupDoc [("api-key", "k"), ("devbox-name", "x"), ("devbox-id", "d1")] "devbox-id"
        = some "d1"
    ∧ lookupDoc [("api-key", "k"), ("devbox-name", "x"), ("devbox-id", "d1")] "devbox-name"
        = some "x"
    ∧ lookupDoc [("api-key", "k"), ("devbox-name", "x"), ("devbox-id", "d1")] "api-key"
        = some "k" := by
  refine ⟨?_, ?_, ?_, ?_, ?_⟩ <;> rfl

/-- A successful task1a initialization implies the file stores parsable
JSON, so the later record step's re-read cannot fail. -/
theorem init1a_ok_shape (fs : FileState) (st : MgrState)
    (h : init1a fs = .ok st) :
    ∃ j d, fs = .stored j ∧ parseDoc j = some d := by
  cases hload : loadConfig fs with
  | error e => simp [init1a, hload] at h
  | ok d =>
      obtain ⟨j, rfl, hp⟩ := loadConfig_ok_shape fs d hload
      exact ⟨j, d, rfl, hp⟩

/-- C1 counterexample: with a service that raises on every call, the
task2 driver's blueprint step fails (run_all_operations returns False
after one call), yet main ignores that result and the process exits 0. -/
theorem c1_counterexample :
    (runAllBp envBoom { file := fsKeyOnly, calls := [] }).2 = false
    ∧ (runAllBp envBoom { file := fsKeyOnly, calls := [] }).1.calls
        = [Call.createBlueprint "cowsay-blueprint"
            "Blueprint with cowsay utility installed"
            ["apt-get update", "apt-get install -y cowsay"]]
    ∧ (main2 envBoom fsKeyOnly).1 = 0 :=
  ⟨rfl, rfl, rfl⟩

/-- C1 amended: the exit code is 0 exactly when initialization succeeds
for the task1b/1c/2/3 drivers (their main ignores the workflow outcome,
so a caught failed step still exits 0), while the task1a driver exits 0
exactly when initialization succeeds and the create call returns a
devbox object (its run turns every failure into exit 1). -/
theorem c1_amended_exit_codes (env : Env) (fs : FileState) :
    (main1b env fs).1 = (if isOkE (init1b fs) then 0 else 1)
    ∧ (main1c env fs).1 = (if isOkE (init1c fs) then 0 else 1)
    ∧ (main2 env fs).1 = (if isOkE (init2 fs) then 0 else 1)
    ∧ (main3 env fs).1 = (if isOkE (init3 fs) then 0 else 1)
    ∧ (main1a env fs).1 = (if isOkE (init1a fs)
          && isDevboxShape (env.stub 0 (.createAndAwaitRunning devboxNameConst))
        then 0 else 1) := by
  refine ⟨?_, ?_, ?_, ?_, ?_⟩
  · cases h : init1b fs <;> simp [main1b, h, isOkE]
  · cases h : init1c fs <;> simp [main1c, h, isOkE]
  · cases h : init2 fs <;> simp [main2, h, isOkE]
  · cases h : init3 fs <;> simp [main3, h, isOkE]
  · cases h : init1a fs with
    | error e => simp [main1a, h, isOkE]
    | ok st =>
        obtain ⟨j, d, rfl, hp⟩ := init1a_ok_shape fs st h
        cases hr : env.stub 0 (Call.createAndAwaitRunning devboxNameConst) <;>
          simp [main1a, h, isOkE, run1a, createDevbox, issue,
            hr, isDevboxShape, updateAnswersJson1a, hp]

/-- C5 counterexample: a fully successful ScenarioCreator run issues only
the scenario-creation and run-creation calls; it never re-uploads
resources, never re-runs the verification script, and never calls the
remote complete operation. -/
theorem c5_counterexample :
    (runAllScen envHappy { file := fsKeyOnly, calls := [] }).2 = true
    ∧ (runAllScen envHappy { file := fsKeyOnly, calls := [] }).1.calls
        = [createScenarioCall, Call.createScenarioRun "sc-1"]
    ∧ ((runAllScen envHappy { file := fsKeyOnly, calls := [] }).1.calls.contains
        (Call.completeScenarioRun "run-1")) = false
    ∧ ((runAllScen envHappy { file := fsKeyOnly, calls := [] }).1.calls.all
        isScenOnly) = true :=
  ⟨rfl, rfl, rfl, rfl⟩

/-- The scenario-creation call is one of the two calls a ScenarioCreator
run may issue. -/
theorem isScenOnly_create : isScenOnly createScenarioCall = true := rfl

/-- The scenario-run-creation call is one of the two calls a
ScenarioCreator run may issue. -/
theorem isScenOnly_run (i : String) :
    isScenOnly (Call.createScenarioRun i) = true := rfl

/-- C5 amended: every run of the Scenario Definition driver issues only
scenario-creation and scenario-run-creation calls; a successful run
issues exactly those two, in order, and then stops (the upload, execute
and complete helpers exist in the script but are never invoked). -/
theorem c5_amended (env : Env) (fs : FileState) :
    ((runAllScen env { file := fs, calls := [] }).2 = true →
       (runAllScen env { file := fs, calls := [] }).1.calls
         = [createScenarioCall,
            Call.createScenarioRun (scenarioIdOf (env.stub 0 createScenarioCall))])
    ∧ ((runAllScen env { file := fs, calls := [] }).1.calls.all isScenOnly)
        = true := by
  constructor
  · intro hok
    cases hr0 : env.stub 0 createScenarioCall <;>
      simp [runAllScen, createCustomScenario, createScenarioRunStep, issue,
        hr0, scenarioIdOf] at hok ⊢
    case scenario n i =>
      cases hr1 : env.stub 1 (Call.createScenarioRun i) <;>
        simp [hr1] at hok ⊢
  · cases hr0 : env.stub 0 createScenarioCall <;>
      simp [runAllScen, createCustomScenario, createScenarioRunStep, issue,
        hr0, isScenOnly_create]
    case scenario n i =>
      cases hr1 : env.stub 1 (Call.createScenarioRun i) <;>
        simp [hr1, isScenOnly_create, isScenOnly_run]

theorem c5_amended_witness :
    (runAllScen envHappy { file := fsKeyOnly, calls := [] }).1.calls
      = [createScenarioCall, Call.createScenarioRun "sc-1"]
    ∧ ((runAllScen envHappy { file := fsKeyOnly, calls := [] }).1.calls.all
        isScenOnly) = true :=
  ⟨(c5_amended envHappy fsKeyOnly).1 rfl, (c5_amended envHappy fsKeyOnly).2⟩

/-- C9 counterexample: the Provision driver's update helper does not
catch-and-continue: on an unreadable config document it re-raises, and
the run halts with exit 1 even though the remote create succeeded. -/
theorem c9_counterexample :
    updateAnswersJson1a FileState.malformed "k" ⟨"x", "d1", "running"⟩
      = Except.error ()
    ∧ (run1a envC4 { apiKey := "k" } { file := FileState.malformed, calls := [] }).1
      = 1 :=
  ⟨rfl, rfl⟩

/-- C9 amended: the shared update helper of the task1b/1c/2/3 drivers
catches every persistence failure and returns normally with the file
unchanged, and the workflow keeps issuing the remaining remote calls
(shown on a task1b run over an unreadable file: the devbox id is never
recorded yet all four remote calls happen and the run succeeds); the
task1a driver's helper instead propagates the error. -/
theorem c9_amended (fs : FileState) (e : InitErr) (k v apiKey : String)
    (info : DevboxInfo) (h : loadConfig fs = .error e) :
    updateAnswersJson fs k v = fs
    ∧ updateAnswersJson1a fs apiKey info = .error ()
    ∧ (runAllOps envHappy stUnresolved
        { file := FileState.malformed, calls := [] }).2 = true
    ∧ (runAllOps envHappy stUnresolved
        { file := FileState.malformed, calls := [] }).1.file = FileState.malformed
    ∧ 1 < (runAllOps envHappy stUnresolved
        { file := FileState.malformed, calls := [] }).1.calls.length := by
  refine ⟨?_, ?_, rfl, rfl, by decide⟩
  · cases fs with
    | missing => rfl
    | malformed => rfl
    | stored j =>
        cases hp : parseDoc j with
        | none => simp [updateAnswersJson, hp]
        | some d => rw [loadConfig, hp] at h; cases h
  · cases fs with
    | missing => rfl
    | malformed => rfl
    | stored j =>
        cases hp : parseDoc j with
        | none => simp [updateAnswersJson1a, hp]
        | some d => rw [loadConfig, hp] at h; cases h

theorem c9_amended_witness :
    updateAnswersJson FileState.missing "devbox-id" "d" = FileState.missing
    ∧ updateAnswersJson1a FileState.missing "k" ⟨"n", "i", "s"⟩
      = Except.error () := by
  have h := c9_amended FileState.missing InitErr.configMissing
    "devbox-id" "d" "k" ⟨"n", "i", "s"⟩ rfl
  exact ⟨h.1, h.2.1⟩

/-- The me.txt edit issues exactly one write call when the local file is
readable. -/
theorem editMeTxt_calls_some (env : Env) (st : OpsState) (w : World)
    (content : String) (hm : env.meTxtLocal = some content) :
    (editMeTxt env st w).1.calls = w.calls
      ++ [Call.writeFile (st.devboxId.getD "") "/workspace/resources/me.txt" content] := by
  simp only [editMeTxt, hm, issue]
  split <;> rfl

/-- The blueprint step issues exactly its one create call. -/
theorem createBlueprintStep_calls (env : Env) (w : World) :
    (createBlueprintStep env w).1.calls = w.calls
      ++ [Call.createBlueprint "cowsay-blueprint"
            "Blueprint with cowsay utility installed"
            ["apt-get update", "apt-get install -y cowsay"]] := by
  simp only [createBlueprintStep, issue]
  split <;> rfl

/-- The blueprint boot step issues exactly its one create call. -/
theorem bootDevboxStep_calls (env : Env) (blueprintId : String) (w : World) :
    (bootDevboxStep env blueprintId w).1.calls = w.calls
      ++ [Call.createDevbox "cowsay-test-devbox" blueprintId] := by
  simp only [bootDevboxStep, issue]
  split <;> rfl

/-- The cowsay test issues exactly its one execute call. -/
theorem testCowsayStep_calls (env : Env) (devboxId : String) (w : World) :
    (testCowsayStep env devboxId w).1.calls = w.calls
      ++ [Call.executeCommand devboxId "cowsay \x27Hello from Runloop!\x27"] := by
  simp only [testCowsayStep, issue]
  split <;> rfl

/-- The snapshot step issues exactly its one create call. -/
theorem createSnapshotStep_calls (env : Env) (st : SnapState) (w : World) :
    (createSnapshotStep env st w).1.calls = w.calls
      ++ [Call.createSnapshot st.devboxId
            ("snapshot-after-operations-" ++ pyStr st.devboxName)] := by
  simp only [createSnapshotStep, issue]
  split <;> rfl

/-- The task1a create step issues exactly its one create call. -/
theorem createDevbox_calls (env : Env) (w : World) :
    (createDevbox env w).1.calls = w.calls
      ++ [Call.createAndAwaitRunning devboxNameConst] := by
  simp only [createDevbox, issue]
  split <;> rfl

/-- The scenario-creation step issues exactly its one create call. -/
theorem createCustomScenario_calls (env : Env) (w : World) :
    (createCustomScenario env w).1.calls = w.calls ++ [createScenarioCall] := by
  simp only [createCustomScenario, issue]
  split <;> rfl

/-- The scenario-run step issues exactly its one create call. -/
theorem createScenarioRunStep_calls (env : Env) (scenarioId : String) (w : World) :
    (createScenarioRunStep env scenarioId w).1.calls = w.calls
      ++ [Call.createScenarioRun scenarioId] := by
  simp only [createScenarioRunStep, issue]
  split <;> rfl

/-- When the service raises at call index p, the listing step either
never reaches index p or issues the p-indexed call, has it raise, and
fails. -/
theorem listStep_halts (env : Env) (st : OpsState) (p : Nat) (msg : String)
    (hstub : ∀ c, env.stub p c = .exn msg) (w : World)
    (hw : w.calls.length ≤ p) :
    (listDevboxesStep env st w).2.1.calls.length ≤ p
    ∨ ((listDevboxesStep env st w).2.1.calls.length = p + 1
        ∧ (listDevboxesStep env st w).2.2 = false) := by
  rcases Nat.lt_or_ge w.calls.length p with h | h
  · left
    rw [listStep_calls]
    simp
    omega
  · have heq : w.calls.length = p := Nat.le_antisymm hw h
    right
    refine ⟨by rw [listStep_calls]; simp [heq], ?_⟩
    simp [listDevboxesStep, issue, heq, hstub]

/-- When the service raises at call index p, the upload loop either
never reaches index p or stops right at it with failure. -/
theorem uploadFiles_halts (env : Env) (id : String) (p : Nat) (msg : String)
    (hstub : ∀ c, env.stub p c = .exn msg) :
    ∀ (files : List (String × String)) (w : World), w.calls.length ≤ p →
      (uploadFiles env id files w).1.calls.length ≤ p
      ∨ ((uploadFiles env id files w).1.calls.length = p + 1
          ∧ (uploadFiles env id files w).2 = false) := by
  intro files
  induction files with
  | nil =>
      intro w hw
      left
      simpa [uploadFiles] using hw
  | cons f rest ih =>
      intro w hw
      obtain ⟨fname, content⟩ := f
      rcases Nat.lt_or_ge w.calls.length p with h | h
      · cases hr : env.stub w.calls.length
            (Call.writeFile id ("/workspace/resources/" ++ fname) content) <;>
          first
          | (left
             simp [uploadFiles, issue, hr]
             omega)
          | (simp only [uploadFiles, issue, hr]
             exact ih _ (by simp; omega))
      · have heq : w.calls.length = p := Nat.le_antisymm hw h
        right
        simp [uploadFiles, issue, heq, hstub]

/-- When the service raises at call index p, the copy step either never
reaches index p or stops right at it with failure. -/
theorem copyResources_halts (env : Env) (st : OpsState) (p : Nat) (msg : String)
    (hstub : ∀ c, env.stub p c = .exn msg) (w : World)
    (hw : w.calls.length ≤ p) :
    (copyResources env st w).1.calls.length ≤ p
    ∨ ((copyResources env st w).1.calls.length = p + 1
        ∧ (copyResources env st w).2 = false) := by
  cases hd : env.resourcesDirExists with
  | false =>
      left
      simpa [copyResources, hd] using hw
  | true =>
      have h := uploadFiles_halts env (st.devboxId.getD "") p msg hstub env.resources w hw
      simpa [copyResources, hd] using h

/-- When the service raises at call index p, the me.txt edit either never
reaches index p or stops right at it with failure. -/
theorem editMeTxt_halts (env : Env) (st : OpsState) (p : Nat) (msg : String)
    (hstub : ∀ c, env.stub p c = .exn msg) (w : World)
    (hw : w.calls.length ≤ p) :
    (editMeTxt env st w).1.calls.length ≤ p
    ∨ ((editMeTxt env st w).1.calls.length = p + 1
        ∧ (editMeTxt env st w).2 = false) := by
  cases hm : env.meTxtLocal with
  | none =>
      left
      simpa [editMeTxt, hm] using hw
  | some content =>
      rcases Nat.lt_or_ge w.calls.length p with h | h
      · left
        rw [editMeTxt_calls_some env st w content hm]
        simp
        omega
      · have heq : w.calls.length = p := Nat.le_antisymm hw h
        right
        refine ⟨by rw [editMeTxt_calls_some env st w content hm]; simp [heq], ?_⟩
        simp [editMeTxt, hm, issue, heq, hstub]

/-- When the service raises at call index p, the script-execution step
either never reaches index p or stops right at it with failure. -/
theorem executeTestScript_halts (env : Env) (st : OpsState) (p : Nat)
    (msg : String) (hstub : ∀ c, env.stub p c = .exn msg) (w : World)
    (hw : w.calls.length ≤ p) :
    (executeTestScript env st w).1.calls.length ≤ p
    ∨ ((executeTestScript env st w).1.calls.length = p + 1
        ∧ (executeTestScript env st w).2 = false) := by
  rcases Nat.lt_or_ge w.calls.length p with h | h
  · left
    rw [executeTestScript_calls]
    simp
    omega
  · have heq : w.calls.length = p := Nat.le_antisymm hw h
    right
    refine ⟨by rw [executeTestScript_calls]; simp [heq], ?_⟩
    simp [executeTestScript, issue, heq, hstub]

/-- When the service raises at call index p, the blueprint step either
never reaches index p or stops right at it returning None. -/
theorem createBlueprintStep_halts (env : Env) (p : Nat) (msg : String)
    (hstub : ∀ c, env.stub p c = .exn msg) (w : World)
    (hw : w.calls.length ≤ p) :
    (createBlueprintStep env w).1.calls.length ≤ p
    ∨ ((createBlueprintStep env w).1.calls.length = p + 1
        ∧ (createBlueprintStep env w).2 = none) := by
  rcases Nat.lt_or_ge w.calls.length p with h | h
  · left
    rw [createBlueprintStep_calls]
    simp
    omega
  · have heq : w.calls.length = p := Nat.le_antisymm hw h
    right
    refine ⟨by rw [createBlueprintStep_calls]; simp [heq], ?_⟩
    simp [createBlueprintStep, issue, heq, hstub]

/-- When the service raises at call index p, the blueprint boot step
either never reaches index p or stops right at it returning None. -/
theorem bootDevboxStep_halts (env : Env) (blueprintId : String) (p : Nat)
    (msg : String) (hstub : ∀ c, env.stub p c = .exn msg) (w : World)
    (hw : w.calls.length ≤ p) :
    (bootDevboxStep env blueprintId w).1.calls.length ≤ p
    ∨ ((bootDevboxStep env blueprintId w).1.calls.length = p + 1
        ∧ (bootDevboxStep env blueprintId w).2 = none) := by
  rcases Nat.lt_or_ge w.calls.length p with h | h
  · left
    rw [bootDevboxStep_calls]
    simp
    omega
  · have heq : w.calls.length = p := Nat.le_antisymm hw h
    right
    refine ⟨by rw [bootDevboxStep_calls]; simp [heq], ?_⟩
    simp [bootDevboxStep, issue, heq, hstub]

/-- When the service raises at call index p, the cowsay test either never
reaches index p or stops right at it with failure. -/
theorem testCowsayStep_halts (env : Env) (devboxId : String) (p : Nat)
    (msg : String) (hstub : ∀ c, env.stub p c = .exn msg) (w : World)
    (hw : w.calls.length ≤ p) :
    (testCowsayStep env devboxId w).1.calls.length ≤ p
    ∨ ((testCowsayStep env devboxId w).1.calls.length = p + 1
        ∧ (testCowsayStep env devboxId w).2 = false) := by
  rcases Nat.lt_or_ge w.calls.length p with h | h
  · left
    rw [testCowsayStep_calls]
    simp
    omega
  · have heq : w.calls.length = p := Nat.le_antisymm hw h
    right
    refine ⟨by rw [testCowsayStep_calls]; simp [heq], ?_⟩
    simp [testCowsayStep, issue, heq, hstub]

/-- When the service raises at call index p, the snapshot step either
never reaches index p or stops right at it returning None. -/
theorem createSnapshotStep_halts (env : Env) (st : SnapState) (p : Nat)
    (msg : String) (hstub : ∀ c, env.stub p c = .exn msg) (w : World)
    (hw : w.calls.length ≤ p) :
    (createSnapshotStep env st w).1.calls.length ≤ p
    ∨ ((createSnapshotStep env st w).1.calls.length = p + 1
        ∧ (createSnapshotStep env st w).2 = none) := by
  rcases Nat.lt_or_ge w.calls.length p with h | h
  · left
    rw [createSnapshotStep_calls]
    simp
    omega
  · have heq : w.calls.length = p := Nat.le_antisymm hw h
    right
    refine ⟨by rw [createSnapshotStep_calls]; simp [heq], ?_⟩
    simp [createSnapshotStep, issue, heq, hstub]

/-- When the service raises at call index p, the task1a create step
either never reaches index p or stops right at it returning None. -/
theorem createDevbox_halts (env : Env) (p : Nat) (msg : String)
    (hstub : ∀ c, env.stub p c = .exn msg) (w : World)
    (hw : w.calls.length ≤ p) :
    (createDevbox env w).1.calls.length ≤ p
    ∨ ((createDevbox env w).1.calls.length = p + 1
        ∧ (createDevbox env w).2 = none) := by
  rcases Nat.lt_or_ge w.calls.length p with h | h
  · left
    rw [createDevbox_calls]
    simp
    omega
  · have heq : w.calls.length = p := Nat.le_antisymm hw h
    right
    refine ⟨by rw [createDevbox_calls]; simp [heq], ?_⟩
    simp [createDevbox, issue, heq, hstub]

/-- When the service raises at call index p, the scenario-creation step
either never reaches index p or stops right at it returning None. -/
theorem createCustomScenario_halts (env : Env) (p : Nat) (msg : String)
    (hstub : ∀ c, env.stub p c = .exn msg) (w : World)
    (hw : w.calls.length ≤ p) :
    (createCustomScenario env w).1.calls.length ≤ p
    ∨ ((createCustomScenario env w).1.calls.length = p + 1
        ∧ (createCustomScenario env w).2 = none) := by
  rcases Nat.lt_or_ge w.calls.length p with h | h
  · left
    rw [createCustomScenario_calls]
    simp
    omega
  · have heq : w.calls.length = p := Nat.le_antisymm hw h
    right
    refine ⟨by rw [createCustomScenario_calls]; simp [heq], ?_⟩
    simp [createCustomScenario, issue, heq, hstub]

/-- When the service raises at call index p, the scenario-run step either
never reaches index p or stops right at it returning None. -/
theorem createScenarioRunStep_halts (env : Env) (scenarioId : String)
    (p : Nat) (msg : String) (hstub : ∀ c, env.stub p c = .exn msg)
    (w : World) (hw : w.calls.length ≤ p) :
    (createScenarioRunStep env scenarioId w).1.calls.length ≤ p
    ∨ ((createScenarioRunStep env scenarioId w).1.calls.length = p + 1
        ∧ (createScenarioRunStep env scenarioId w).2 = none) := by
  rcases Nat.lt_or_ge w.calls.length p with h | h
  · left
    rw [createScenarioRunStep_calls]
    simp
    omega
  · have heq : w.calls.length = p := Nat.le_antisymm hw h
    right
    refine ⟨by rw [createScenarioRunStep_calls]; simp [heq], ?_⟩
    simp [createScenarioRunStep, issue, heq, hstub]

/-- When the service raises at call index p, steps 1-3 of task1b either
never reach index p or stop right at it with failure. -/
theorem restOfOps_halts (env : Env) (st : OpsState) (p : Nat) (msg : String)
    (hstub : ∀ c, env.stub p c = .exn msg) (w : World)
    (hw : w.calls.length ≤ p) :
    (restOfOps env st w).1.calls.length ≤ p
    ∨ ((restOfOps env st w).1.calls.length = p + 1
        ∧ (restOfOps env st w).2 = false) := by
  have h₁ := copyResources_halts env st p msg hstub w hw
  unfold restOfOps
  rcases hc : copyResources env st w with ⟨w₁, b₁⟩
  rw [hc] at h₁
  dsimp only at h₁
  cases b₁ with
  | false =>
      rcases h₁ with h₁ | ⟨hlen, _⟩
      · exact Or.inl h₁
      · exact Or.inr ⟨hlen, rfl⟩
  | true =>
      rcases h₁ with h₁ | ⟨_, hbad⟩
      · dsimp only
        have h₂ := editMeTxt_halts env st p msg hstub w₁ h₁
        rcases he : editMeTxt env st w₁ with ⟨w₂, b₂⟩
        rw [he] at h₂
        dsimp only at h₂
        cases b₂ with
        | false =>
            rcases h₂ with h₂ | ⟨hlen, _⟩
            · exact Or.inl h₂
            · exact Or.inr ⟨hlen, rfl⟩
        | true =>
            rcases h₂ with h₂ | ⟨_, hbad⟩
            · exact executeTestScript_halts env st p msg hstub w₂ h₂
            · cases hbad
      · cases hbad

/-- When the service raises at call index p, the whole task1b workflow
either never reaches index p or stops right at it with failure. -/
theorem runAllOps_halts (env : Env) (st : OpsState) (p : Nat) (msg : String)
    (hstub : ∀ c, env.stub p c = .exn msg) (w : World)
    (hw : w.calls.length ≤ p) :
    (runAllOps env st w).1.calls.length ≤ p
    ∨ ((runAllOps env st w).1.calls.length = p + 1
        ∧ (runAllOps env st w).2 = false) := by
  cases hmiss : devboxIdMissing st.devboxId with
  | false =>
      simp only [runAllOps, hmiss, Bool.false_eq_true, if_false]
      exact restOfOps_halts env st p msg hstub w hw
  | true =>
      simp only [runAllOps, hmiss, if_true]
      have hl := listStep_halts env st p msg hstub w hw
      rcases hstep : listDevboxesStep env st w with ⟨st₁, w₁, b₁⟩
      rw [hstep] at hl
      dsimp only at hl
      cases b₁ with
      | false =>
          rcases hl with hl | ⟨hlen, _⟩
          · exact Or.inl hl
          · exact Or.inr ⟨hlen, rfl⟩
      | true =>
          rcases hl with hl | ⟨_, hbad⟩
          · exact restOfOps_halts env st₁ p msg hstub w₁ hl
          · cases hbad

/-- When the service raises at call index p, the task2 workflow either
never reaches index p or stops right at it with failure. -/
theorem runAllBp_halts (env : Env) (p : Nat) (msg : String)
    (hstub : ∀ c, env.stub p c = .exn msg) (w : World)
    (hw : w.calls.length ≤ p) :
    (runAllBp env w).1.calls.length ≤ p
    ∨ ((runAllBp env w).1.calls.length = p + 1
        ∧ (runAllBp env w).2 = false) := by
  have h₁ := createBlueprintStep_halts env p msg hstub w hw
  unfold runAllBp
  rcases hc : createBlueprintStep env w with ⟨w₁, o₁⟩
  rw [hc] at h₁
  dsimp only at h₁
  cases o₁ with
  | none =>
      rcases h₁ with h₁ | ⟨hlen, _⟩
      · exact Or.inl h₁
      · exact Or.inr ⟨hlen, rfl⟩
  | some bp =>
      rcases h₁ with h₁ | ⟨_, hbad⟩
      · dsimp only
        have h₂ := bootDevboxStep_halts env bp.2 p msg hstub w₁ h₁
        rcases hb : bootDevboxStep env bp.2 w₁ with ⟨w₂, o₂⟩
        rw [hb] at h₂
        dsimp only at h₂
        cases o₂ with
        | none =>
            rcases h₂ with h₂ | ⟨hlen, _⟩
            · exact Or.inl h₂
            · exact Or.inr ⟨hlen, rfl⟩
        | some dv =>
            rcases h₂ with h₂ | ⟨_, hbad⟩
            · exact testCowsayStep_halts env dv.2 p msg hstub w₂ h₂
            · cases hbad
      · cases hbad

/-- When the service raises at call index p, the task1c workflow either
never reaches index p or stops right at it with failure. -/
theorem runAllSnap_halts (env : Env) (st : SnapState) (p : Nat) (msg : String)
    (hstub : ∀ c, env.stub p c = .exn msg) (w : World)
    (hw : w.calls.length ≤ p) :
    (runAllSnap env st w).1.calls.length ≤ p
    ∨ ((runAllSnap env st w).1.calls.length = p + 1
        ∧ (runAllSnap env st w).2 = false) := by
  have h₁ := createSnapshotStep_halts env st p msg hstub w hw
  unfold runAllSnap
  rcases hc : createSnapshotStep env st w with ⟨w₁, o₁⟩
  rw [hc] at h₁
  dsimp only at h₁
  cases o₁ with
  | none =>
      rcases h₁ with h₁ | ⟨hlen, _⟩
      · exact Or.inl h₁
      · exact Or.inr ⟨hlen, rfl⟩
  | some s =>
      rcases h₁ with h₁ | ⟨_, hbad⟩
      · exact Or.inl h₁
      · cases hbad

/-- When the service raises at call index p, the task3 workflow either
never reaches index p or stops right at it with failure. -/
theorem runAllScen_halts (env : Env) (p : Nat) (msg : String)
    (hstub : ∀ c, env.stub p c = .exn msg) (w : World)
    (hw : w.calls.length ≤ p) :
    (runAllScen env w).1.calls.length ≤ p
    ∨ ((runAllScen env w).1.calls.length = p + 1
        ∧ (runAllScen env w).2 = false) := by
  have h₁ := createCustomScenario_halts env p msg hstub w hw
  unfold runAllScen
  rcases hc : createCustomScenario env w with ⟨w₁, o₁⟩
  rw [hc] at h₁
  dsimp only at h₁
  cases o₁ with
  | none =>
      rcases h₁ with h₁ | ⟨hlen, _⟩
      · exact Or.inl h₁
      · exact Or.inr ⟨hlen, rfl⟩
  | some sc =>
      rcases h₁ with h₁ | ⟨_, hbad⟩
      · dsimp only
        have h₂ := createScenarioRunStep_halts env sc.2 p msg hstub w₁ h₁
        rcases hr : createScenarioRunStep env sc.2 w₁ with ⟨w₂, o₂⟩
        rw [hr] at h₂
        dsimp only at h₂
        cases o₂ with
        | none =>
            rcases h₂ with h₂ | ⟨hlen, _⟩
            · exact Or.inl h₂
            · exact Or.inr ⟨hlen, rfl⟩
        | some rid =>
            rcases h₂ with h₂ | ⟨_, hbad⟩
            · exact Or.inl h₂
            · cases hbad
      · cases hbad

/-- When the service raises at call index p, the task1a run either never
reaches index p or stops right at it with exit code 1. -/
theorem run1a_halts (env : Env) (st : MgrState) (p : Nat) (msg : String)
    (hstub : ∀ c, env.stub p c = .exn msg) (w : World)
    (hw : w.calls.length ≤ p) :
    (run1a env st w).2.calls.length ≤ p
    ∨ ((run1a env st w).2.calls.length = p + 1
        ∧ (run1a env st w).1 = 1) := by
  have h₁ := createDevbox_halts env p msg hstub w hw
  unfold run1a
  rcases hc : createDevbox env w with ⟨w₁, o₁⟩
  rw [hc] at h₁
  dsimp only at h₁
  cases o₁ with
  | none =>
      rcases h₁ with h₁ | ⟨hlen, _⟩
      · exact Or.inl h₁
      · exact Or.inr ⟨hlen, rfl⟩
  | some info =>
      rcases h₁ with h₁ | ⟨_, hbad⟩
      · dsimp only
        cases updateAnswersJson1a w₁.file st.apiKey info with
        | error e => exact Or.inl h₁
        | ok fs => exact Or.inl h₁
      · cases hbad

/-- Packaging of the halt disjunction as the haltedAt property. -/
theorem haltedAt_of_disj {N : Nat} {res : World × Bool} (hN : 1 ≤ N)
    (h : res.1.calls.length ≤ N - 1
      ∨ (res.1.calls.length = N - 1 + 1 ∧ res.2 = false)) :
    haltedAt N res := by
  unfold haltedAt
  rcases h with h | ⟨h₁, h₂⟩
  · exact ⟨by omega, fun hge => absurd hge (by omega)⟩
  · exact ⟨by omega, fun _ => ⟨by omega, h₂⟩⟩

/-- Packaging of the halt disjunction as the haltedAtExit property. -/
theorem haltedAtExit_of_disj {N : Nat} {res : Nat × World} (hN : 1 ≤ N)
    (h : res.2.calls.length ≤ N - 1
      ∨ (res.2.calls.length = N - 1 + 1 ∧ res.1 = 1)) :
    haltedAtExit N res := by
  unfold haltedAtExit
  rcases h with h | ⟨h₁, h₂⟩
  · exact ⟨by omega, fun hge => absurd hge (by omega)⟩
  · exact ⟨by omega, fun _ => ⟨by omega, h₂⟩⟩

/-- C2: for every driver and every N with a service that raises on its
N-th call, the run issues at most N calls, and whenever the N-th call
was reached the run stops exactly there (no call N+1.., no retry) and
reports failure (False from run_all_operations; exit code 1 for the
task1a run). -/
theorem c2_halt_on_nth_raise (env : Env) (N : Nat) (msg : String)
    (hN : 1 ≤ N) (hstub : ∀ c, env.stub (N - 1) c = .exn msg) :
    (∀ st fs, haltedAt N (runAllOps env st { file := fs, calls := [] }))
    ∧ (∀ st fs, haltedAt N (runAllSnap env st { file := fs, calls := [] }))
    ∧ (∀ fs, haltedAt N (runAllBp env { file := fs, calls := [] }))
    ∧ (∀ fs, haltedAt N (runAllScen env { file := fs, calls := [] }))
    ∧ (∀ st fs, haltedAtExit N (run1a env st { file := fs, calls := [] })) := by
  refine ⟨fun st fs => ?_, fun st fs => ?_, fun fs => ?_, fun fs => ?_,
    fun st fs => ?_⟩
  · exact haltedAt_of_disj hN
      (runAllOps_halts env st (N - 1) msg hstub _ (Nat.zero_le _))
  · exact haltedAt_of_disj hN
      (runAllSnap_halts env st (N - 1) msg hstub _ (Nat.zero_le _))
  · exact haltedAt_of_disj hN
      (runAllBp_halts env (N - 1) msg hstub _ (Nat.zero_le _))
  · exact haltedAt_of_disj hN
      (runAllScen_halts env (N - 1) msg hstub _ (Nat.zero_le _))
  · exact haltedAtExit_of_disj hN
      (run1a_halts env st (N - 1) msg hstub _ (Nat.zero_le _))

theorem c2_halt_on_nth_raise_witness :
    (runAllOps envBoom stUnresolved { file := FileState.missing, calls := [] }).1.calls.length = 1
    ∧ (runAllOps envBoom stUnresolved { file := FileState.missing, calls := [] }).2 = false
    ∧ (runAllSnap envBoom stSnap { file := FileState.missing, calls := [] }).1.calls.length = 1
    ∧ (runAllSnap envBoom stSnap { file := FileState.missing, calls := [] }).2 = false
    ∧ (runAllBp envBoom { file := FileState.missing, calls := [] }).1.calls.length = 1
    ∧ (runAllBp envBoom { file := FileState.missing, calls := [] }).2 = false
    ∧ (runAllScen envBoom { file := FileState.missing, calls := [] }).1.calls.length = 1
    ∧ (runAllScen envBoom { file := FileState.missing, calls := [] }).2 = false
    ∧ (run1a envBoom stMgr { file := FileState.missing, calls := [] }).2.calls.length = 1
    ∧ (run1a envBoom stMgr { file := FileState.missing, calls := [] }).1 = 1 := by
  have h := c2_halt_on_nth_raise envBoom 1 "boom" (by decide) (fun c => rfl)
  have h1 := (h.1 stUnresolved FileState.missing).2 (by decide)
  have h2 := (h.2.1 stSnap FileState.missing).2 (by decide)
  have h3 := (h.2.2.1 FileState.missing).2 (by decide)
  have h4 := (h.2.2.2.1 FileState.missing).2 (by decide)
  have h5 := (h.2.2.2.2 stMgr FileState.missing).2 (by decide)
  exact ⟨h1.1, h1.2, h2.1, h2.2, h3.1, h3.2, h4.1, h4.2, h5.1, h5.2⟩

/-- C6: when the config lacks a usable devbox-id and the listing returns
a devbox whose name equals the configured target, the Operate driver's
resolution step adopts that devbox's id and persists it to the config
document while the trace holds only the list call; the remaining steps
(including every file upload) then start from that persisted state. When
the config already holds a usable devbox-id, the listing is skipped
entirely: no list call ever appears in the run's trace. -/
theorem c6_resolution (env : Env) (j : Json) (d : Doc) (key nm : String)
    (l : List DevboxInfo) (dv : DevboxInfo)
    (hparse : parseDoc j = some d)
    (hkey : lookupDoc d "api-key" = some key) (hk : key ≠ "")
    (hname : lookupDoc d "devbox-name" = some nm)
    (hid : devboxIdMissing (lookupDoc d "devbox-id") = true)
    (hlist : env.stub 0 Call.listDevboxes = .devboxList l)
    (hfind : findMatch (some nm) l = some dv) :
    (init1b (.stored j)
        = .ok { apiKey := key, devboxName := some nm,
                devboxId := lookupDoc d "devbox-id" })
    ∧ (listDevboxesStep env
          { apiKey := key, devboxName := some nm,
            devboxId := lookupDoc d "devbox-id" }
          { file := .stored j, calls := [] }
        = ({ apiKey := key, devboxName := some nm, devboxId := some dv.id },
           { file := (FileState.stored (dumpDoc (insertDoc d "devbox-id" dv.id))),
             calls := [Call.listDevboxes] }, true))
    ∧ lookupDoc (insertDoc d "devbox-id" dv.id) "devbox-id" = some dv.id
    ∧ (runAllOps env
          { apiKey := key, devboxName := some nm,
            devboxId := lookupDoc d "devbox-id" }
          { file := .stored j, calls := [] }
        = restOfOps env
            { apiKey := key, devboxName := some nm, devboxId := some dv.id }
            { file := (FileState.stored (dumpDoc (insertDoc d "devbox-id" dv.id))),
              calls := [Call.listDevboxes] })
    ∧ (∀ (envB : Env) (st : OpsState) (fs : FileState),
        devboxIdMissing st.devboxId = false →
          runAllOps envB st { file := fs, calls := [] }
              = restOfOps envB st { file := fs, calls := [] }
          ∧ Call.listDevboxes
              ∉ (runAllOps envB st { file := fs, calls := [] }).1.calls) := by
  have hstep : listDevboxesStep env
      { apiKey := key, devboxName := some nm,
        devboxId := lookupDoc d "devbox-id" }
      { file := .stored j, calls := [] }
      = ({ apiKey := key, devboxName := some nm, devboxId := some dv.id },
         { file := (FileState.stored (dumpDoc (insertDoc d "devbox-id" dv.id))),
           calls := [Call.listDevboxes] }, true) := by
    simp [listDevboxesStep, issue, hlist, hfind, updateAnswersJson, hparse]
  refine ⟨?_, hstep, lookupDoc_insertDoc_self d "devbox-id" dv.id, ?_, ?_⟩
  · simp [init1b, loadConfig, hparse, hkey, hk, hname]
  · simp only [runAllOps, hid, if_true, hstep]
  · intro envB st fs hmiss
    have hskip : runAllOps envB st { file := fs, calls := [] }
        = restOfOps envB st { file := fs, calls := [] } := by
      simp [runAllOps, hmiss]
    refine ⟨hskip, ?_⟩
    rw [hskip]
    obtain ⟨t, ht, hall⟩ := restOfOps_extends envB st { file := fs, calls := [] }
    rw [ht]
    intro hmem
    rcases List.mem_append.mp hmem with hmem | hmem
    · simp at hmem
    · rcases hall _ hmem with ⟨a, b, s, hEq⟩ | ⟨a, b, hEq⟩ <;> simp at hEq

theorem c6_resolution_witness :
    (listDevboxesStep envHappy stUnresolved
        { file := (FileState.stored (dumpDoc
            [("api-key", "k"), ("devbox-name", "asad.shahid@berkeley.edu")])),
          calls := [] })
      = ({ apiKey := "k", devboxName := some "asad.shahid@berkeley.edu",
           devboxId := some "dv-1" },
         { file := (FileState.stored (dumpDoc
             [("api-key", "k"), ("devbox-name", "asad.shahid@berkeley.edu"),
              ("devbox-id", "dv-1")])),
           calls := [Call.listDevboxes] }, true)
    ∧ Call.listDevboxes
        ∉ (runAllOps envHappy stResolved
            { file := FileState.missing, calls := [] }).1.calls := by
  have h := c6_resolution envHappy
      (dumpDoc [("api-key", "k"), ("devbox-name", "asad.shahid@berkeley.edu")])
      [("api-key", "k"), ("devbox-name", "asad.shahid@berkeley.edu")]
      "k" "asad.shahid@berkeley.edu"
      [⟨"asad.shahid@berkeley.edu", "dv-1", "running"⟩]
      ⟨"asad.shahid@berkeley.edu", "dv-1", "running"⟩
      (parseDoc_dumpDoc _) rfl (by decide) rfl rfl rfl rfl
  exact ⟨h.2.1, (h.2.2.2.2 envHappy stResolved FileState.missing rfl).2⟩
